import Mathlib

/-!
Verification of the blizzard plugin SDK registration protocol.

The repository consists of the header `src/libraries/blizzard_rbus_plugin.h`,
which declares the `PluginRegistration` aggregate (a pointer to the element
table, the element count, and a pointer to the plugin description) and the
`plugin_register_fn` factory signature. The element record type, the
description type and the factory body live outside this repository fragment,
so those parts are modelled from the specification text, as noted on each
definition.
-/

/-- Modelled from the spec: the capability kinds of an addressable element
(readable property, writable property, method, event source). The element
record type `rbusDataElement_t` referenced by the header comes from the
external rbus library, so its kind field is modelled from section 6 of the
specification. -/
inductive ElemKind where
  | readableProp
  | writableProp
  | method
  | eventSource
deriving DecidableEq, Repr

/-- Modelled from the spec: one Element Record of the Element Table. The
header only mentions `const rbusDataElement_t*`; the record shape (stable
name, capability kind, references to the native handlers that service
get, set, invoke and subscribe operations) follows section 3 of the
specification. A handler reference is `some r` when present and `none`
when absent. -/
structure rbusDataElement_t where
  name : String
  kind : ElemKind
  getHandler : Option Nat
  setHandler : Option Nat
  invokeHandler : Option Nat
  subscribeHandler : Option Nat
deriving DecidableEq, Repr

/-- Modelled from the spec: one entry of the ordered element list inside the
Plugin Descriptor, naming the same identifier that appears in the Element
Table and declaring its kind. The concrete protobuf message lives in the
external generated header `descriptor.pb-c.h`. -/
structure ElementDescription where
  name : String
  kind : ElemKind
deriving DecidableEq, Repr

/-- Modelled from the spec: the Plugin Descriptor, a structured metadata
document with plugin identity (name, version) and an ordered list of element
descriptions. The concrete protobuf type named in the header is
`Blizzard__Plugin__Description__PluginDescription`. -/
structure Blizzard__Plugin__Description__PluginDescription where
  name : String
  version : String
  elements : List ElementDescription
deriving DecidableEq, Repr

/-- Abbreviation for the descriptor type, mirroring the long generated
protobuf name used in the header. -/
abbrev PluginDescription := Blizzard__Plugin__Description__PluginDescription

/-- The `PluginRegistration` aggregate from
`src/libraries/blizzard_rbus_plugin.h`: a reference to the element table
(`const rbusDataElement_t* rbus_elements`), the element count
(`size_t rbus_element_count`), and a reference to the plugin description
(`PluginDescription* plugin_description`). The C pointer-plus-length pair
is embedded as a list together with the separately stored count field. -/
structure PluginRegistration where
  rbus_elements : List rbusDataElement_t
  rbus_element_count : Nat
  plugin_description : PluginDescription
deriving DecidableEq, Repr

/-- The factory signature from the header:
`typedef PluginRegistration* (*plugin_register_fn)(void);` — no arguments,
returning either a reference to a registration record (`some r`) or the
null failure marker (`none`). -/
abbrev plugin_register_fn := Unit → Option PluginRegistration

/-- Modelled from the spec: whether the handler references required by the
capability kind of an element record are present (section 3 and section 6:
read-capable kinds need a get handler, write-capable kinds a set handler,
methods an invoke handler, event sources a subscribe handler). -/
def requiredHandlersPresent (e : rbusDataElement_t) : Bool :=
  match e.kind with
  | ElemKind.readableProp => e.getHandler.isSome
  | ElemKind.writableProp => e.setHandler.isSome
  | ElemKind.method => e.invokeHandler.isSome
  | ElemKind.eventSource => e.subscribeHandler.isSome

/-- Modelled from the spec: no two element names in the table coincide
(section 4.2 duplicate-name policy). -/
def namesNodup : List String → Bool
  | [] => true
  | n :: ns => (!ns.contains n) && namesNodup ns

/-- Modelled from the spec: one element record agrees with one descriptor
entry when the names and the declared kinds coincide (section 4.3). -/
def elemMatchesDesc (e : rbusDataElement_t) (d : ElementDescription) : Bool :=
  e.name == d.name && decide (e.kind = d.kind)

/-- Modelled from the spec: the descriptor element list is a perfect match
(by name, cardinality and kind) to the element table (section 4.3). -/
def descriptorMatchesTable (es : List rbusDataElement_t)
    (ds : List ElementDescription) : Bool :=
  es.length == ds.length
    && es.all (fun e => ds.any (fun d => elemMatchesDesc e d))
    && ds.all (fun d => es.any (fun e => elemMatchesDesc e d))

/-- Modelled from the spec: everything a plugin brings to its factory call —
the element records it intends to register, in registration order, the
descriptor it built alongside, and whether the internal allocations of the
call succeed. The factory itself takes no arguments; this input captures the
self-contained state of one concrete plugin (section 4.1). -/
structure PluginInput where
  elements : List rbusDataElement_t
  description : PluginDescription
  allocOk : Bool
deriving DecidableEq, Repr

/-- Modelled from the spec: the construction-time validation of section 4 —
allocation success, no duplicate element names, kind-mandated handlers
present, and descriptor/table consistency. -/
def registrationValid (inp : PluginInput) : Bool :=
  inp.allocOk
    && namesNodup (inp.elements.map (fun e => e.name))
    && inp.elements.all requiredHandlersPresent
    && descriptorMatchesTable inp.elements inp.description.elements

/-- Modelled from the spec: the factory body missing from this repository
fragment (only its signature `plugin_register_fn` is in the header). Per
sections 4 and 7 it validates the construction invariants and returns either
a fully populated registration record or the failure marker. -/
def plugin_register (inp : PluginInput) : Option PluginRegistration :=
  if registrationValid inp then
    some { rbus_elements := inp.elements
           rbus_element_count := inp.elements.length
           plugin_description := inp.description }
  else
    none

/-- The registration function of one concrete plugin, as the host sees it:
a closure of type `plugin_register_fn` over the self-contained plugin
state. -/
def registerFnOf (inp : PluginInput) : plugin_register_fn :=
  fun _ => plugin_register inp

/-! Concrete scenario inputs from section 8 of the specification. -/

/-- The readable element named temp.value with a get handler. -/
def tempValueElem : rbusDataElement_t :=
  { name := "temp.value"
    kind := ElemKind.readableProp
    getHandler := some 1
    setHandler := none
    invokeHandler := none
    subscribeHandler := none }

/-- The writable element named temp.setpoint with a set handler. -/
def tempSetpointElem : rbusDataElement_t :=
  { name := "temp.setpoint"
    kind := ElemKind.writableProp
    getHandler := none
    setHandler := some 2
    invokeHandler := none
    subscribeHandler := none }

/-- A plugin input declaring temp.value then temp.setpoint consistently in
table and descriptor, in that order. -/
def goodInput : PluginInput :=
  { elements := [tempValueElem, tempSetpointElem]
    description :=
      { name := "thermo"
        version := "1.0"
        elements :=
          [{ name := "temp.value", kind := ElemKind.readableProp },
           { name := "temp.setpoint", kind := ElemKind.writableProp }] }
    allocOk := true }

/-- The registration record the factory produces on `goodInput`. -/
def goodRecord : PluginRegistration :=
  { rbus_elements := [tempValueElem, tempSetpointElem]
    rbus_element_count := 2
    plugin_description := goodInput.description }

/-- A plugin input declaring temp.value twice in the table. -/
def dupInput : PluginInput :=
  { elements := [tempValueElem, tempValueElem]
    description :=
      { name := "thermo"
        version := "1.0"
        elements := [{ name := "temp.value", kind := ElemKind.readableProp }] }
    allocOk := true }

/-- A plugin input whose table holds temp.value but whose descriptor element
list omits it. -/
def omitInput : PluginInput :=
  { elements := [tempValueElem]
    description := { name := "thermo", version := "1.0", elements := [] }
    allocOk := true }

/-- A plugin input that declares no elements at all. -/
def emptyInput : PluginInput :=
  { elements := []
    description := { name := "thermo", version := "1.0", elements := [] }
    allocOk := true }

/-! Helper lemmas shared by the claim theorems. -/

/-- The boolean duplicate check agrees with `List.Nodup`. -/
theorem namesNodup_iff (l : List String) : namesNodup l = true ↔ l.Nodup := by
  induction l with
  | nil => simp [namesNodup]
  | cons n ns ih =>
      simp [namesNodup, List.nodup_cons, ih, List.elem_iff, And.comm]

/-- Characterisation of a successful factory call. -/
theorem plugin_register_eq_some (inp : PluginInput) (r : PluginRegistration) :
    plugin_register inp = some r ↔
      registrationValid inp = true ∧
        r = { rbus_elements := inp.elements
              rbus_element_count := inp.elements.length
              plugin_description := inp.description } := by
  unfold plugin_register
  by_cases h : registrationValid inp = true
  · simp [h, eq_comm]
  · simp [h]

/-- Characterisation of a failed factory call. -/
theorem plugin_register_eq_none (inp : PluginInput) :
    plugin_register inp = none ↔ registrationValid inp = false := by
  unfold plugin_register
  by_cases h : registrationValid inp = true
  · simp [h]
  · simp [h, Bool.eq_false_iff, h]

/-- Unpacking of the validation conjunction. -/
theorem registrationValid_iff (inp : PluginInput) :
    registrationValid inp = true ↔
      inp.allocOk = true ∧
        namesNodup (inp.elements.map (fun e => e.name)) = true ∧
        inp.elements.all requiredHandlersPresent = true ∧
        descriptorMatchesTable inp.elements inp.description.elements = true := by
  unfold registrationValid
  simp [Bool.and_eq_true, and_assoc]

/-! Claim theorems. -/

/-- Claim C1: for every registration record returned successfully by the
factory, the set of element names declared in the descriptor element list is
exactly the set of names in the Element Table — same cardinality, same
identifiers, and the same declared kind for each name. -/
theorem descriptor_table_names_exact_match (inp : PluginInput)
    (r : PluginRegistration) (h : plugin_register inp = some r) :
    r.rbus_elements.length = r.plugin_description.elements.length ∧
    ∀ (n : String) (k : ElemKind),
      (∃ e ∈ r.rbus_elements, e.name = n ∧ e.kind = k) ↔
      (∃ d ∈ r.plugin_description.elements, d.name = n ∧ d.kind = k) := by
  rcases (plugin_register_eq_some inp r).1 h with ⟨hv, hr⟩
  rcases (registrationValid_iff inp).1 hv with ⟨-, -, -, hm⟩
  subst hr
  unfold descriptorMatchesTable at hm
  simp only [Bool.and_eq_true, beq_iff_eq, List.all_eq_true, List.any_eq_true,
    elemMatchesDesc, decide_eq_true_eq] at hm
  obtain ⟨⟨hlen, hfwd⟩, hbwd⟩ := hm
  refine ⟨hlen, fun n k => ⟨?_, ?_⟩⟩
  · rintro ⟨e, he, hen, hek⟩
    rcases hfwd e he with ⟨d, hd, hdn, hdk⟩
    exact ⟨d, hd, by rw [← hdn, hen], by rw [← hdk, hek]⟩
  · rintro ⟨d, hd, hdn, hdk⟩
    rcases hbwd d hd with ⟨e, he, hen, hek⟩
    exact ⟨e, he, by rw [hen, hdn], by rw [hek, hdk]⟩

/-- Claim C1 witness: on the consistent two-element scenario input the
factory succeeds and the exact-match conclusion holds for the returned
record. -/
theorem descriptor_table_names_exact_match_witness :
    goodRecord.rbus_elements.length =
        goodRecord.plugin_description.elements.length ∧
    ∀ (n : String) (k : ElemKind),
      (∃ e ∈ goodRecord.rbus_elements, e.name = n ∧ e.kind = k) ↔
      (∃ d ∈ goodRecord.plugin_description.elements, d.name = n ∧ d.kind = k) :=
  descriptor_table_names_exact_match goodInput goodRecord (by decide)

/-- Claim C2: two element records carrying the same name make the factory
return the failure marker, and consequently in every successfully returned
table no two element records share a name. -/
theorem duplicate_names_rejected (inp : PluginInput) :
    (¬ (inp.elements.map (fun e => e.name)).Nodup →
      plugin_register inp = none) ∧
    (∀ r, plugin_register inp = some r →
      (r.rbus_elements.map (fun e => e.name)).Nodup) := by
  have key : registrationValid inp = true →
      (inp.elements.map (fun e => e.name)).Nodup := by
    intro hv
    rcases (registrationValid_iff inp).1 hv with ⟨-, hnd, -, -⟩
    exact (namesNodup_iff _).1 hnd
  constructor
  · intro hdup
    rw [plugin_register_eq_none]
    cases hvb : registrationValid inp with
    | false => rfl
    | true => exact absurd (key hvb) hdup
  · intro r hr
    rcases (plugin_register_eq_some inp r).1 hr with ⟨hv, hrr⟩
    subst hrr
    exact key hv

/-- Claim C2 witness: declaring temp.value twice makes the factory return
the failure marker. -/
theorem duplicate_names_rejected_witness : plugin_register dupInput = none :=
  (duplicate_names_rejected dupInput).1 (by decide)

/-- Claim C3: on any validation or allocation failure the factory returns
only the failure marker, and every successfully returned record is fully
populated consistently — the stored count equals the table length, table and
descriptor list have the same length, and one is empty exactly when the
other is. -/
theorem no_partial_registration (inp : PluginInput) :
    (registrationValid inp = false → plugin_register inp = none) ∧
    (∀ r, plugin_register inp = some r →
      r.rbus_element_count = r.rbus_elements.length ∧
      r.rbus_elements.length = r.plugin_description.elements.length ∧
      (r.rbus_elements = [] ↔ r.plugin_description.elements = [])) := by
  constructor
  · intro hv
    exact (plugin_register_eq_none inp).2 hv
  · intro r hr
    rcases (plugin_register_eq_some inp r).1 hr with ⟨hv, hrr⟩
    rcases (registrationValid_iff inp).1 hv with ⟨-, -, -, hm⟩
    subst hrr
    unfold descriptorMatchesTable at hm
    simp only [Bool.and_eq_true, beq_iff_eq] at hm
    obtain ⟨⟨hlen, -⟩, -⟩ := hm
    refine ⟨rfl, hlen, ?_⟩
    show inp.elements = [] ↔ inp.description.elements = []
    constructor
    · intro he
      have h0 : inp.description.elements.length = 0 := by
        rw [← hlen, he]
        rfl
      exact List.length_eq_zero.1 h0
    · intro hd
      have h0 : inp.elements.length = 0 := by
        rw [hlen, hd]
        rfl
      exact List.length_eq_zero.1 h0

/-- Claim C3 witness: an allocation failure on the otherwise consistent
scenario input yields the failure marker, and the successful scenario record
is fully populated consistently. -/
theorem no_partial_registration_witness :
    plugin_register { goodInput with allocOk := false } = none ∧
    (goodRecord.rbus_element_count = goodRecord.rbus_elements.length ∧
      goodRecord.rbus_elements.length =
        goodRecord.plugin_description.elements.length ∧
      (goodRecord.rbus_elements = [] ↔
        goodRecord.plugin_description.elements = [])) :=
  ⟨(no_partial_registration { goodInput with allocOk := false }).1 (by decide),
   (no_partial_registration goodInput).2 goodRecord (by decide)⟩

/-- Claim C6: in every successfully returned table the capability kind of
each element record implies the presence of the required handler reference
(get for readable, set for writable, invoke for methods, subscribe for
event sources); moreover a read-only property with a get handler passes the
handler check even with no set handler, so no set handler is required of
it. -/
theorem kind_implies_required_handlers (inp : PluginInput)
    (r : PluginRegistration) (h : plugin_register inp = some r) :
    (∀ e ∈ r.rbus_elements,
      (e.kind = ElemKind.readableProp → e.getHandler.isSome = true) ∧
      (e.kind = ElemKind.writableProp → e.setHandler.isSome = true) ∧
      (e.kind = ElemKind.method → e.invokeHandler.isSome = true) ∧
      (e.kind = ElemKind.eventSource → e.subscribeHandler.isSome = true)) ∧
    (∀ e : rbusDataElement_t, e.kind = ElemKind.readableProp →
      e.getHandler.isSome = true → e.setHandler = none →
      requiredHandlersPresent e = true) := by
  rcases (plugin_register_eq_some inp r).1 h with ⟨hv, hr⟩
  rcases (registrationValid_iff inp).1 hv with ⟨-, -, hall, -⟩
  subst hr
  rw [List.all_eq_true] at hall
  constructor
  · intro e he
    have hp : requiredHandlersPresent e = true := hall e he
    unfold requiredHandlersPresent at hp
    refine ⟨?_, ?_, ?_, ?_⟩ <;> intro hk <;> rw [hk] at hp <;> exact hp
  · intro e hk hget _
    unfold requiredHandlersPresent
    rw [hk]
    exact hget

/-- Claim C6 witness: the successful two-element scenario satisfies the
kind-to-handler implications, and the read-only temp.value element with no
set handler passes the handler check. -/
theorem kind_implies_required_handlers_witness :
    ((∀ e ∈ goodRecord.rbus_elements,
      (e.kind = ElemKind.readableProp → e.getHandler.isSome = true) ∧
      (e.kind = ElemKind.writableProp → e.setHandler.isSome = true) ∧
      (e.kind = ElemKind.method → e.invokeHandler.isSome = true) ∧
      (e.kind = ElemKind.eventSource → e.subscribeHandler.isSome = true)) ∧
    (∀ e : rbusDataElement_t, e.kind = ElemKind.readableProp →
      e.getHandler.isSome = true → e.setHandler = none →
      requiredHandlersPresent e = true)) ∧
    tempValueElem.setHandler = none :=
  ⟨kind_implies_required_handlers goodInput goodRecord (by decide), rfl⟩

/-- Claim C7: the element table preserves insertion order — for every
successful registration, enumerating the returned table yields the element
names in exactly the order in which the plugin registered them. -/
theorem insertion_order_preserved (inp : PluginInput)
    (r : PluginRegistration) (h : plugin_register inp = some r) :
    r.rbus_elements = inp.elements ∧
    r.rbus_elements.map (fun e => e.name) =
      inp.elements.map (fun e => e.name) := by
  rcases (plugin_register_eq_some inp r).1 h with ⟨-, hr⟩
  subst hr
  exact ⟨rfl, rfl⟩

/-- Claim C7 witness: registering temp.value then temp.setpoint yields a
table enumerating exactly those two names in that order. -/
theorem insertion_order_preserved_witness :
    goodRecord.rbus_elements.map (fun e => e.name) =
      ["temp.value", "temp.setpoint"] :=
  Eq.trans (insertion_order_preserved goodInput goodRecord (by decide)).2
    (by decide)

/-- Claim C4: the factory entry point has the fixed signature of the header
typedef — no arguments and a registration-record-reference-or-failure
result; a value of that signature is fully determined by its one result, and
each plugin supplies one such entry point whose single call produces its
registration outcome. -/
theorem factory_single_fixed_signature :
    plugin_register_fn = (Unit → Option PluginRegistration) ∧
    (∀ (f : plugin_register_fn) (u v : Unit), f u = f v) ∧
    (∀ f g : plugin_register_fn, f () = g () → f = g) ∧
    (∀ inp : PluginInput, registerFnOf inp () = plugin_register inp) := by
  refine ⟨rfl, ?_, ?_, ?_⟩
  · intro f u v
    cases u
    cases v
    rfl
  · intro f g h
    funext u
    cases u
    exact h
  · intro inp
    rfl

/-- Claim C4 witness: the determination-by-one-result conjunct applied to
the entry point of the concrete scenario plugin, and its single call
yielding the registration outcome. -/
theorem factory_single_fixed_signature_witness :
    registerFnOf goodInput = registerFnOf goodInput ∧
    registerFnOf goodInput () = plugin_register goodInput :=
  ⟨factory_single_fixed_signature.2.2.1 (registerFnOf goodInput)
      (registerFnOf goodInput) rfl,
   factory_single_fixed_signature.2.2.2 goodInput⟩

/-- Claim C5: the registration record consists of exactly three components —
the element table reference, the element count, and the plugin description
reference — witnessed by an equivalence between `PluginRegistration` and the
triple of its fields. -/
theorem registration_record_three_components :
    ∃ eqv : PluginRegistration ≃
        (List rbusDataElement_t × Nat × PluginDescription),
      ∀ r : PluginRegistration,
        eqv r = (r.rbus_elements, r.rbus_element_count, r.plugin_description) :=
  ⟨{ toFun := fun r =>
       (r.rbus_elements, r.rbus_element_count, r.plugin_description)
     invFun := fun t =>
       { rbus_elements := t.1
         rbus_element_count := t.2.1
         plugin_description := t.2.2 }
     left_inv := fun _ => rfl
     right_inv := fun _ => rfl },
   fun _ => rfl⟩

/-- Claim C9: a factory call with zero elements declared has one
deterministic outcome — either the failure marker, or a valid empty
registration with element count zero and an empty descriptor element list —
and equal inputs always produce equal outcomes. -/
theorem zero_elements_deterministic_policy (inp : PluginInput)
    (h1 : inp.elements = []) (h2 : inp.description.elements = []) :
    (plugin_register inp = none ∨
      ∃ r, plugin_register inp = some r ∧ r.rbus_element_count = 0 ∧
        r.plugin_description.elements = []) ∧
    ∀ inp2 : PluginInput, inp2 = inp →
      plugin_register inp2 = plugin_register inp := by
  constructor
  · cases hv : registrationValid inp with
    | false => exact Or.inl ((plugin_register_eq_none inp).2 hv)
    | true =>
        refine Or.inr ⟨_, (plugin_register_eq_some inp _).2 ⟨hv, rfl⟩, ?_, h2⟩
        show inp.elements.length = 0
        rw [h1]
        rfl
  · intro inp2 he
    rw [he]

/-- Claim C9 witness: on the concrete zero-element input the deterministic
policy conclusion holds. -/
theorem zero_elements_deterministic_policy_witness :
    (plugin_register emptyInput = none ∨
      ∃ r, plugin_register emptyInput = some r ∧ r.rbus_element_count = 0 ∧
        r.plugin_description.elements = []) ∧
    ∀ inp2 : PluginInput, inp2 = emptyInput →
      plugin_register inp2 = plugin_register emptyInput :=
  zero_elements_deterministic_policy emptyInput rfl rfl

/-- Claim C10: at the public interface the failure marker is the null
reference — every factory result is either the null marker or a reference
to a registration record, the two are distinct, and no third outcome is
expressible. -/
theorem failure_marker_is_null :
    (∀ f : plugin_register_fn,
      f () = none ∨ ∃ r : PluginRegistration, f () = some r) ∧
    (∀ r : PluginRegistration, (none : Option PluginRegistration) ≠ some r) ∧
    (∀ inp : PluginInput, plugin_register inp = none ∨
      ∃ r : PluginRegistration, plugin_register inp = some r) := by
  refine ⟨?_, ?_, ?_⟩
  · intro f
    cases f () with
    | none => exact Or.inl rfl
    | some r => exact Or.inr ⟨r, rfl⟩
  · intro r hcontra
    exact Option.noConfusion hcontra
  · intro inp
    cases plugin_register inp with
    | none => exact Or.inl rfl
    | some r => exact Or.inr ⟨r, rfl⟩

/-- Claim C10 witness: the dichotomy applied to the concrete scenario input
and the distinctness of the null marker from the concrete scenario
record. -/
theorem failure_marker_is_null_witness :
    (plugin_register goodInput = none ∨
      ∃ r : PluginRegistration, plugin_register goodInput = some r) ∧
    (none : Option PluginRegistration) ≠ some goodRecord :=
  ⟨failure_marker_is_null.2.2 goodInput, failure_marker_is_null.2.1 goodRecord⟩
